import Mathlib

/-!
Shallow embedding of the in-memory mock document store
(`MockCollection` in `src/backend/database.py`) and its seed data.

Python values flowing through the store are modelled by the inductive
type `Value` (strings, integers, lists and string-keyed dictionaries).
A Python dictionary is modelled as an association list in insertion
order with unique keys maintained by `setField` (`d[k] = v` updates in
place, else appends); `getField` models `d[k]` / `k in d` and
`eraseField` models `d.pop(k)`.  Mutation of the store is modelled by
explicit state passing.  Operations whose Python body can raise
(`update_one` via `.append` / `.remove` / `in` on non-sequence values,
`find` via the query matcher) return `Except Unit`, where
`Except.error ()` models an uncaught Python exception; for an erroring
call only the fact that the exception escapes is tracked, not the
partially mutated store.  Hashability of dictionary keys is not
modelled.
-/

namespace MockDB

/-- A Python value as used by the store: string, int, list or dict. -/
inductive Value where
  | str : String → Value
  | int : Int → Value
  | list : List Value → Value
  | obj : List (String × Value) → Value

-- Decidable equality on `Value` (Python `==` restricted to these
-- shapes), by mutual structural recursion through the nested lists.
mutual

def Value.decEq : (a b : Value) → Decidable (a = b)
  | .str s, .str t =>
      match String.decEq s t with
      | isTrue h => isTrue (h ▸ rfl)
      | isFalse h => isFalse fun hh => h (Value.str.inj hh)
  | .str _, .int _ => isFalse fun hh => Value.noConfusion hh
  | .str _, .list _ => isFalse fun hh => Value.noConfusion hh
  | .str _, .obj _ => isFalse fun hh => Value.noConfusion hh
  | .int _, .str _ => isFalse fun hh => Value.noConfusion hh
  | .int a, .int b =>
      match Int.decEq a b with
      | isTrue h => isTrue (h ▸ rfl)
      | isFalse h => isFalse fun hh => h (Value.int.inj hh)
  | .int _, .list _ => isFalse fun hh => Value.noConfusion hh
  | .int _, .obj _ => isFalse fun hh => Value.noConfusion hh
  | .list _, .str _ => isFalse fun hh => Value.noConfusion hh
  | .list _, .int _ => isFalse fun hh => Value.noConfusion hh
  | .list l, .list m =>
      match decEqL l m with
      | isTrue h => isTrue (h ▸ rfl)
      | isFalse h => isFalse fun hh => h (Value.list.inj hh)
  | .list _, .obj _ => isFalse fun hh => Value.noConfusion hh
  | .obj _, .str _ => isFalse fun hh => Value.noConfusion hh
  | .obj _, .int _ => isFalse fun hh => Value.noConfusion hh
  | .obj _, .list _ => isFalse fun hh => Value.noConfusion hh
  | .obj l, .obj m =>
      match decEqO l m with
      | isTrue h => isTrue (h ▸ rfl)
      | isFalse h => isFalse fun hh => h (Value.obj.inj hh)

def decEqL : (l m : List Value) → Decidable (l = m)
  | [], [] => isTrue rfl
  | [], _ :: _ => isFalse fun hh => List.noConfusion hh
  | _ :: _, [] => isFalse fun hh => List.noConfusion hh
  | x :: xs, y :: ys =>
      match Value.decEq x y, decEqL xs ys with
      | isTrue h1, isTrue h2 => isTrue (by rw [h1, h2])
      | isFalse h1, _ => isFalse fun hh => h1 (List.cons.inj hh).1
      | _, isFalse h2 => isFalse fun hh => h2 (List.cons.inj hh).2

def decEqO : (l m : List (String × Value)) → Decidable (l = m)
  | [], [] => isTrue rfl
  | [], _ :: _ => isFalse fun hh => List.noConfusion hh
  | _ :: _, [] => isFalse fun hh => List.noConfusion hh
  | (k1, v1) :: m1, (k2, v2) :: m2 =>
      match String.decEq k1 k2, Value.decEq v1 v2, decEqO m1 m2 with
      | isTrue h1, isTrue h2, isTrue h3 => isTrue (by rw [h1, h2, h3])
      | isFalse h1, _, _ =>
          isFalse fun hh => h1 (Prod.mk.inj (List.cons.inj hh).1).1
      | _, isFalse h2, _ =>
          isFalse fun hh => h2 (Prod.mk.inj (List.cons.inj hh).1).2
      | _, _, isFalse h3 => isFalse fun hh => h3 (List.cons.inj hh).2

end

instance : DecidableEq Value := Value.decEq

/-- A record body / document / query: a Python dict with string keys. -/
abbrev Fields := List (String × Value)

/-- The store's `_data` mapping: record key (any value) to record body. -/
abbrev Store := List (Value × Fields)

/-- `d[f]` / `f in d` on a string-keyed dict: first matching pair. -/
def getField : Fields → String → Option Value
  | [], _ => none
  | (k, v) :: rest, f => if k = f then some v else getField rest f

/-- `d.pop(f)`'s effect on the dict: drop the pairs keyed `f`. -/
def eraseField : Fields → String → Fields
  | [], _ => []
  | (k, v) :: rest, f => if k = f then eraseField rest f else (k, v) :: eraseField rest f

/-- `d[f] = v`: overwrite in place if the key exists, else append. -/
def setField : Fields → String → Value → Fields
  | [], f, v => [(f, v)]
  | (k, w) :: rest, f, v =>
      if k = f then (f, v) :: rest else (k, w) :: setField rest f v

/-- `_data[k]` / `k in _data`. -/
def storeGet : Store → Value → Option Fields
  | [], _ => none
  | (k, b) :: rest, q => if k = q then some b else storeGet rest q

/-- `_data[k] = b`. -/
def storeSet : Store → Value → Fields → Store
  | [], k, b => [(k, b)]
  | (k0, b0) :: rest, k, b =>
      if k0 = k then (k, b) :: rest else (k0, b0) :: storeSet rest k b

/-- Python dict display `{"_id": key, **body}`. -/
def withId (k : Value) (body : Fields) : Fields :=
  body.foldl (fun acc p => setField acc p.1 p.2) [("_id", k)]

/-- `t in s` on strings: substring test. -/
def substrB (t s : String) : Bool :=
  (List.range (s.toList.length + 1)).any
    (fun i => decide ((s.toList.drop i).take t.toList.length = t.toList))

/-- Python `x in container`.  `in` on a list is membership by `==`, on a
string it is the substring test (`TypeError` for a non-string operand),
on a dict it is key membership (`TypeError` for an unhashable operand),
and on an int it is a `TypeError`. -/
def memVal (container x : Value) : Except Unit Bool :=
  match container with
  | .list l => .ok (decide (x ∈ l))
  | .str s =>
      match x with
      | .str t => .ok (substrB t s)
      | _ => .error ()
  | .obj m =>
      match x with
      | .str t => .ok (getField m t).isSome
      | .int _ => .ok false
      | _ => .error ()
  | .int _ => .error ()

/-- Python `container[key]` for a string `key`: dict lookup (`KeyError`
when absent), `TypeError` on a string, list or int container. -/
def indexVal (container : Value) (key : String) : Except Unit Value :=
  match container with
  | .obj m =>
      match getField m key with
      | some v => .ok v
      | none => .error ()
  | _ => .error ()

-- Python `a < b`: strings compare lexicographically by code point
-- (modelled on their character lists), ints compare as integers, lists
-- compare lexicographically (equal heads are skipped), every other
-- combination is a `TypeError`.
mutual

def ltVal : Value → Value → Except Unit Bool
  | .str s, .str t => .ok (decide (s.toList < t.toList))
  | .int a, .int b => .ok (decide (a < b))
  | .list l, .list m => ltL l m
  | _, _ => .error ()

def ltL : List Value → List Value → Except Unit Bool
  | [], [] => .ok false
  | [], _ :: _ => .ok true
  | _ :: _, [] => .ok false
  | x :: xs, y :: ys => if x = y then ltL xs ys else ltVal x y

end

/-- Python `a > b` (for these shapes, the mirror image of `<`). -/
def gtVal (a b : Value) : Except Unit Bool :=
  ltVal b a

/-- `any(day in container for day in iterable)` over a materialized
list of iterated elements. -/
def anyMemL : List Value → Value → Except Unit Bool
  | [], _ => .ok false
  | d :: ds, container =>
      match memVal container d with
      | .error e => .error e
      | .ok b => if b then .ok true else anyMemL ds container

/-- Python iteration for `any(day in container for day in iterable)`:
lists iterate their elements, strings their characters, dicts their
keys; iterating an int is a `TypeError`. -/
def pyAnyMem (iterable container : Value) : Except Unit Bool :=
  match iterable with
  | .list ds => anyMemL ds container
  | .str s => anyMemL (s.toList.map (fun c => Value.str (String.singleton c))) container
  | .obj m => anyMemL (m.map (fun p => Value.str p.1)) container
  | .int _ => .error ()

/-- `find_one(query)`: identifier lookup only. -/
def find_one (query : Fields) (data : Store) : Option Fields :=
  match getField query "_id" with
  | some item_id =>
      match storeGet data item_id with
      | some body => some (withId item_id body)
      | none => none
  | none => none

/-- `insert_one(document)`: pop the identifier out of the caller's dict
and store the remainder under it.  Returns the `acknowledged` flag, the
caller's document as it is left after the call (`pop` mutates it), and
the new store. -/
def insert_one (document : Fields) (data : Store) : Bool × Fields × Store :=
  match getField document "_id" with
  | some item_id =>
      (true, eraseField document "_id",
        storeSet data item_id (eraseField document "_id"))
  | none => (false, document, data)

/-- `count_documents(query)`: the query is ignored. -/
def count_documents (_query : Option Fields) (data : Store) : Nat :=
  data.length

/-- The `$push` loop of `update_one`: for each field→value pair, append
to the field's list (`AttributeError` if the stored value is not a
list), or create a new single-element list if the field is absent. -/
def applyPush : Fields → List (String × Value) → Except Unit Fields
  | body, [] => .ok body
  | body, (f, v) :: rest =>
      match getField body f with
      | some (.list l) => applyPush (setField body f (.list (l ++ [v]))) rest
      | some _ => .error ()
      | none => applyPush (setField body f (.list [v])) rest

/-- The `$pull` loop of `update_one`: for each field→value pair, if the
field is present and contains the value, `.remove` the first occurrence
(`AttributeError` if the stored value is not a list); otherwise leave
the body unchanged. -/
def applyPull : Fields → List (String × Value) → Except Unit Fields
  | body, [] => .ok body
  | body, (f, v) :: rest =>
      match getField body f with
      | none => applyPull body rest
      | some container =>
          match memVal container v with
          | .error e => .error e
          | .ok present =>
              if present then
                match container with
                | .list l => applyPull (setField body f (.list (l.erase v))) rest
                | _ => .error ()
              else
                applyPull body rest

/-- The `if "$push" in update` block of `update_one`: run the `$push`
loop if present (`AttributeError` at `.items()` if the `$push` operand
is not a dict). -/
def pushPart (update body : Fields) : Except Unit Fields :=
  match getField update "$push" with
  | some (.obj pushes) => applyPush body pushes
  | some _ => .error ()
  | none => .ok body

/-- The `if "$pull" in update` block of `update_one`, analogous. -/
def pullPart (update body : Fields) : Except Unit Fields :=
  match getField update "$pull" with
  | some (.obj pulls) => applyPull body pulls
  | some _ => .error ()
  | none => .ok body

/-- `update_one(query, update)`: identifier lookup, then the `$push`
clauses, then the `$pull` clauses; `modified_count` is 1 whenever the
key existed, else 0. -/
def update_one (query update : Fields) (data : Store) : Except Unit (Nat × Store) :=
  match getField query "_id" with
  | none => .ok (0, data)
  | some item_id =>
      match storeGet data item_id with
      | none => .ok (0, data)
      | some body =>
          match pushPart update body with
          | .error e => .error e
          | .ok body1 =>
              match pullPart update body1 with
              | .error e => .error e
              | .ok body2 => .ok (1, storeSet data item_id body2)

/-- `n` successive calls of `update_one({"_id": k}, {"$push": {f: v}})`
threading the store through; stops at the first raised exception. -/
def iterPush (k : Value) (f : String) (v : Value) : Nat → Store → Except Unit Store
  | 0, s => .ok s
  | n + 1, s =>
      match update_one [("_id", k)] [("$push", Value.obj [(f, v)])] s with
      | .ok (_, s2) => iterPush k f v n s2
      | .error e => .error e

/-- `_matches_query(value, query)`: conjunction over the query's
conditions, dispatching on the three supported dotted field paths; any
other path is skipped (always matches). -/
def matchesQuery (value : Fields) : List (String × Value) → Except Unit Bool
  | [] => .ok true
  | (field, condition) :: rest =>
      if field = "schedule_details.days" then
        match getField value "schedule_details" with
        | none => .ok false
        | some sd =>
            match memVal sd (.str "days") with
            | .error e => .error e
            | .ok false => .ok false
            | .ok true =>
                match condition with
                | .obj m =>
                    match getField m "$in" with
                    | some requested =>
                        match indexVal sd "days" with
                        | .error e => .error e
                        | .ok activityDays =>
                            match pyAnyMem requested activityDays with
                            | .error e => .error e
                            | .ok hit =>
                                if hit then matchesQuery value rest else .ok false
                    | none => matchesQuery value rest
                | .str day =>
                    match indexVal sd "days" with
                    | .error e => .error e
                    | .ok activityDays =>
                        match memVal activityDays (.str day) with
                        | .error e => .error e
                        | .ok hit =>
                            if hit then matchesQuery value rest else .ok false
                | _ => matchesQuery value rest
      else if field = "schedule_details.start_time" then
        match getField value "schedule_details" with
        | none => .ok false
        | some sd =>
            match memVal sd (.str "start_time") with
            | .error e => .error e
            | .ok false => .ok false
            | .ok true =>
                match indexVal sd "start_time" with
                | .error e => .error e
                | .ok activityStart =>
                    match condition with
                    | .obj m =>
                        match getField m "$gte" with
                        | some bound =>
                            match ltVal activityStart bound with
                            | .error e => .error e
                            | .ok lt =>
                                if lt then .ok false else matchesQuery value rest
                        | none => matchesQuery value rest
                    | .str t =>
                        match ltVal activityStart (.str t) with
                        | .error e => .error e
                        | .ok lt =>
                            if lt then .ok false else matchesQuery value rest
                    | _ => matchesQuery value rest
      else if field = "schedule_details.end_time" then
        match getField value "schedule_details" with
        | none => .ok false
        | some sd =>
            match memVal sd (.str "end_time") with
            | .error e => .error e
            | .ok false => .ok false
            | .ok true =>
                match indexVal sd "end_time" with
                | .error e => .error e
                | .ok activityEnd =>
                    match condition with
                    | .obj m =>
                        match getField m "$lte" with
                        | some bound =>
                            match gtVal activityEnd bound with
                            | .error e => .error e
                            | .ok gt =>
                                if gt then .ok false else matchesQuery value rest
                        | none => matchesQuery value rest
                    | .str t =>
                        match gtVal activityEnd (.str t) with
                        | .error e => .error e
                        | .ok gt =>
                            if gt then .ok false else matchesQuery value rest
                    | _ => matchesQuery value rest
      else
        matchesQuery value rest

/-- The filtering loop of `find(query)` for a non-`None` query. -/
def findAux (q : Fields) : Store → Except Unit (List Fields)
  | [] => .ok []
  | (k, b) :: rest =>
      match matchesQuery b q with
      | .error e => .error e
      | .ok m =>
          match findAux q rest with
          | .error e => .error e
          | .ok others => .ok (if m then withId k b :: others else others)

/-- `find(query)`: all records (identifier restored) when the query is
`None`, else the records matching every condition. -/
def find (query : Option Fields) (data : Store) : Except Unit (List Fields) :=
  match query with
  | none => .ok (data.map fun p => withId p.1 p.2)
  | some q => findAux q data

/-- Seed record body of "Chess Club". -/
def chessClub : Fields :=
  [("description", .str "Learn strategies and compete in chess tournaments"),
   ("schedule", .str "Mondays and Fridays, 3:15 PM - 4:45 PM"),
   ("schedule_details", .obj
     [("days", .list [.str "Monday", .str "Friday"]),
      ("start_time", .str "15:15"),
      ("end_time", .str "16:45")]),
   ("max_participants", .int 12),
   ("participants", .list [.str "michael@mergington.edu", .str "daniel@mergington.edu"])]

/-- Seed record body of "Programming Class". -/
def programmingClass : Fields :=
  [("description", .str "Learn programming fundamentals and build software projects"),
   ("schedule", .str "Tuesdays and Thursdays, 7:00 AM - 8:00 AM"),
   ("schedule_details", .obj
     [("days", .list [.str "Tuesday", .str "Thursday"]),
      ("start_time", .str "07:00"),
      ("end_time", .str "08:00")]),
   ("max_participants", .int 20),
   ("participants", .list [.str "emma@mergington.edu", .str "sophia@mergington.edu"])]

/-- Seed record body of "Morning Fitness". -/
def morningFitness : Fields :=
  [("description", .str "Early morning physical training and exercises"),
   ("schedule", .str "Mondays, Wednesdays, Fridays, 6:30 AM - 7:45 AM"),
   ("schedule_details", .obj
     [("days", .list [.str "Monday", .str "Wednesday", .str "Friday"]),
      ("start_time", .str "06:30"),
      ("end_time", .str "07:45")]),
   ("max_participants", .int 30),
   ("participants", .list [.str "john@mergington.edu", .str "olivia@mergington.edu"])]

/-- Seed record body of "Soccer Team". -/
def soccerTeam : Fields :=
  [("description", .str "Join the school soccer team and compete in matches"),
   ("schedule", .str "Tuesdays and Thursdays, 3:30 PM - 5:30 PM"),
   ("schedule_details", .obj
     [("days", .list [.str "Tuesday", .str "Thursday"]),
      ("start_time", .str "15:30"),
      ("end_time", .str "17:30")]),
   ("max_participants", .int 22),
   ("participants", .list [.str "liam@mergington.edu", .str "noah@mergington.edu"])]

/-- Seed record body of "Basketball Team". -/
def basketballTeam : Fields :=
  [("description", .str "Practice and compete in basketball tournaments"),
   ("schedule", .str "Wednesdays and Fridays, 3:15 PM - 5:00 PM"),
   ("schedule_details", .obj
     [("days", .list [.str "Wednesday", .str "Friday"]),
      ("start_time", .str "15:15"),
      ("end_time", .str "17:00")]),
   ("max_participants", .int 15),
   ("participants", .list [.str "ava@mergington.edu", .str "mia@mergington.edu"])]

/-- Seed record body of "Art Club". -/
def artClub : Fields :=
  [("description", .str "Explore various art techniques and create masterpieces"),
   ("schedule", .str "Thursdays, 3:15 PM - 5:00 PM"),
   ("schedule_details", .obj
     [("days", .list [.str "Thursday"]),
      ("start_time", .str "15:15"),
      ("end_time", .str "17:00")]),
   ("max_participants", .int 15),
   ("participants", .list [.str "amelia@mergington.edu", .str "harper@mergington.edu"])]

/-- Seed record body of "Drama Club". -/
def dramaClub : Fields :=
  [("description", .str "Act, direct, and produce plays and performances"),
   ("schedule", .str "Mondays and Wednesdays, 3:30 PM - 5:30 PM"),
   ("schedule_details", .obj
     [("days", .list [.str "Monday", .str "Wednesday"]),
      ("start_time", .str "15:30"),
      ("end_time", .str "17:30")]),
   ("max_participants", .int 20),
   ("participants", .list [.str "ella@mergington.edu", .str "scarlett@mergington.edu"])]

/-- Seed record body of "Math Club". -/
def mathClub : Fields :=
  [("description", .str "Solve challenging problems and prepare for math competitions"),
   ("schedule", .str "Tuesdays, 7:15 AM - 8:00 AM"),
   ("schedule_details", .obj
     [("days", .list [.str "Tuesday"]),
      ("start_time", .str "07:15"),
      ("end_time", .str "08:00")]),
   ("max_participants", .int 10),
   ("participants", .list [.str "james@mergington.edu", .str "benjamin@mergington.edu"])]

/-- Seed record body of "Debate Team". -/
def debateTeam : Fields :=
  [("description", .str "Develop public speaking and argumentation skills"),
   ("schedule", .str "Fridays, 3:30 PM - 5:30 PM"),
   ("schedule_details", .obj
     [("days", .list [.str "Friday"]),
      ("start_time", .str "15:30"),
      ("end_time", .str "17:30")]),
   ("max_participants", .int 12),
   ("participants", .list [.str "charlotte@mergington.edu", .str "amelia@mergington.edu"])]

/-- Seed record body of "Weekend Robotics Workshop". -/
def weekendRobotics : Fields :=
  [("description", .str "Build and program robots in our state-of-the-art workshop"),
   ("schedule", .str "Saturdays, 10:00 AM - 2:00 PM"),
   ("schedule_details", .obj
     [("days", .list [.str "Saturday"]),
      ("start_time", .str "10:00"),
      ("end_time", .str "14:00")]),
   ("max_participants", .int 15),
   ("participants", .list [.str "ethan@mergington.edu", .str "oliver@mergington.edu"])]

/-- Seed record body of "Science Olympiad". -/
def scienceOlympiad : Fields :=
  [("description", .str "Weekend science competition preparation for regional and state events"),
   ("schedule", .str "Saturdays, 1:00 PM - 4:00 PM"),
   ("schedule_details", .obj
     [("days", .list [.str "Saturday"]),
      ("start_time", .str "13:00"),
      ("end_time", .str "16:00")]),
   ("max_participants", .int 18),
   ("participants", .list [.str "isabella@mergington.edu", .str "lucas@mergington.edu"])]

/-- Seed record body of "Sunday Chess Tournament". -/
def sundayChess : Fields :=
  [("description", .str "Weekly tournament for serious chess players with rankings"),
   ("schedule", .str "Sundays, 2:00 PM - 5:00 PM"),
   ("schedule_details", .obj
     [("days", .list [.str "Sunday"]),
      ("start_time", .str "14:00"),
      ("end_time", .str "17:00")]),
   ("max_participants", .int 16),
   ("participants", .list [.str "william@mergington.edu", .str "jacob@mergington.edu"])]

/-- Seed record body of "Manga Maniacs". -/
def mangaManiacs : Fields :=
  [("description", .str "Explore the fantastic stories of the most interesting characters from Japanese Manga (graphic novels)."),
   ("schedule", .str "Tuesdays, 7:00 PM - 8:30 PM"),
   ("schedule_details", .obj
     [("days", .list [.str "Tuesday"]),
      ("start_time", .str "19:00"),
      ("end_time", .str "20:30")]),
   ("max_participants", .int 15),
   ("participants", .list [])]

/-- The `initial_activities` seed mapping, in source order.  This is
also the fallback store contents after
`activities_collection._data = initial_activities.copy()`. -/
def initial_activities : Store :=
  [(.str "Chess Club", chessClub),
   (.str "Programming Class", programmingClass),
   (.str "Morning Fitness", morningFitness),
   (.str "Soccer Team", soccerTeam),
   (.str "Basketball Team", basketballTeam),
   (.str "Art Club", artClub),
   (.str "Drama Club", dramaClub),
   (.str "Math Club", mathClub),
   (.str "Debate Team", debateTeam),
   (.str "Weekend Robotics Workshop", weekendRobotics),
   (.str "Science Olympiad", scienceOlympiad),
   (.str "Sunday Chess Tournament", sundayChess),
   (.str "Manga Maniacs", mangaManiacs)]

/-- The `initial_teachers` seed list; `hash` stands for
`hash_password`, whose argon2 output (random salt) is kept abstract. -/
def initial_teachers (hash : String → String) : List Fields :=
  [[("username", .str "mrodriguez"),
    ("display_name", .str "Ms. Rodriguez"),
    ("password", .str (hash "art123")),
    ("role", .str "teacher")],
   [("username", .str "mchen"),
    ("display_name", .str "Mr. Chen"),
    ("password", .str (hash "chess456")),
    ("role", .str "teacher")],
   [("username", .str "principal"),
    ("display_name", .str "Principal Martinez"),
    ("password", .str (hash "admin789")),
    ("role", .str "admin")]]

/-- The normal teacher-seeding path of `init_database`:
`insert_one({"_id": teacher["username"], **teacher})` for each teacher
(`KeyError` if a teacher lacked "username"). -/
def seedTeachersInsert (hash : String → String) : Except Unit Store :=
  (initial_teachers hash).foldlM
    (fun s t =>
      match getField t "username" with
      | some u => Except.ok (insert_one (withId u t) s).2.2
      | none => Except.error ())
    ([] : Store)

/-- The exception-fallback teacher-seeding path of `init_database`:
`teachers_data[teacher["username"]] = {k: v for k, v in teacher.items()
if k != "username"}` for each teacher. -/
def seedTeachersFallback (hash : String → String) : Except Unit Store :=
  (initial_teachers hash).foldlM
    (fun s t =>
      match getField t "username" with
      | some u => Except.ok (storeSet s u (t.filter (fun p => p.1 ≠ "username")))
      | none => Except.error ())
    ([] : Store)

/-! Basic lemmas about the dict and store primitives. -/

theorem getField_setField_self (b : Fields) (f : String) (v : Value) :
    getField (setField b f v) f = some v := by
  induction b with
  | nil => simp [setField, getField]
  | cons p rest ih =>
      obtain ⟨k, w⟩ := p
      by_cases h : k = f
      · simp [setField, getField, h]
      · simp [setField, getField, h, ih]

theorem setField_setField (b : Fields) (f : String) (v w : Value) :
    setField (setField b f v) f w = setField b f w := by
  induction b with
  | nil => simp [setField]
  | cons p rest ih =>
      obtain ⟨k, x⟩ := p
      by_cases h : k = f
      · simp [setField, h]
      · simp [setField, h, ih]

theorem setField_eq_self (b : Fields) (f : String) (v : Value)
    (h : getField b f = some v) : setField b f v = b := by
  induction b with
  | nil => simp [getField] at h
  | cons p rest ih =>
      obtain ⟨k, x⟩ := p
      by_cases hk : k = f
      · simp only [getField, if_pos hk, Option.some.injEq] at h
        simp [setField, hk, h]
      · simp only [getField, if_neg hk] at h
        simp [setField, hk, ih h]

theorem storeGet_storeSet_self (s : Store) (k : Value) (b : Fields) :
    storeGet (storeSet s k b) k = some b := by
  induction s with
  | nil => simp [storeSet, storeGet]
  | cons p rest ih =>
      obtain ⟨k0, b0⟩ := p
      by_cases h : k0 = k
      · simp [storeSet, storeGet, h]
      · simp [storeSet, storeGet, h, ih]

theorem storeSet_storeSet (s : Store) (k : Value) (b c : Fields) :
    storeSet (storeSet s k b) k c = storeSet s k c := by
  induction s with
  | nil => simp [storeSet]
  | cons p rest ih =>
      obtain ⟨k0, b0⟩ := p
      by_cases h : k0 = k
      · simp [storeSet, h]
      · simp [storeSet, h, ih]

theorem storeSet_eq_self (s : Store) (k : Value) (b : Fields)
    (h : storeGet s k = some b) : storeSet s k b = s := by
  induction s with
  | nil => simp [storeGet] at h
  | cons p rest ih =>
      obtain ⟨k0, b0⟩ := p
      by_cases hk : k0 = k
      · simp only [storeGet, if_pos hk, Option.some.injEq] at h
        simp [storeSet, hk, h]
      · simp only [storeGet, if_neg hk] at h
        simp [storeSet, hk, ih h]

theorem getField_eq_none_iff (m : Fields) (f : String) :
    getField m f = none ↔ ∀ p ∈ m, p.1 ≠ f := by
  induction m with
  | nil => simp [getField]
  | cons p rest ih =>
      obtain ⟨k, v⟩ := p
      by_cases h : k = f
      · simp [getField, h]
      · simp [getField, h, ih]

theorem getField_append_right (l1 l2 : Fields) (f : String)
    (h : getField l1 f = none) : getField (l1 ++ l2) f = getField l2 f := by
  induction l1 with
  | nil => simp
  | cons p rest ih =>
      obtain ⟨k, v⟩ := p
      by_cases hk : k = f
      · simp [getField, hk] at h
      · simp only [getField, if_neg hk] at h
        simp [getField, hk, ih h]

theorem setField_append (b : Fields) (f : String) (v : Value)
    (h : getField b f = none) : setField b f v = b ++ [(f, v)] := by
  induction b with
  | nil => simp [setField]
  | cons p rest ih =>
      obtain ⟨k, x⟩ := p
      by_cases hk : k = f
      · simp [getField, hk] at h
      · simp only [getField, if_neg hk] at h
        simp [setField, hk, ih h]

theorem foldl_setField_append : ∀ body acc : Fields,
    (∀ p ∈ body, getField acc p.1 = none) → (body.map Prod.fst).Nodup →
    body.foldl (fun a p => setField a p.1 p.2) acc = acc ++ body := by
  intro body
  induction body with
  | nil => simp
  | cons p rest ih =>
      intro acc hfresh hnd
      obtain ⟨k, v⟩ := p
      have hacc : setField acc k v = acc ++ [(k, v)] :=
        setField_append acc k v (hfresh (k, v) (List.mem_cons_self _ _))
      have hfresh2 : ∀ q ∈ rest, getField (acc ++ [(k, v)]) q.1 = none := by
        intro q hq
        have h1 : getField acc q.1 = none := hfresh q (List.mem_cons_of_mem _ hq)
        have h2 : q.1 ≠ k := by
          intro hqk
          have : k ∈ rest.map Prod.fst := List.mem_map.mpr ⟨q, hq, hqk⟩
          simp_all
        rw [getField_append_right _ _ _ h1]
        simp [getField, Ne.symm h2]
      have hnd2 : (rest.map Prod.fst).Nodup := by simp_all
      calc ((k, v) :: rest).foldl (fun a p => setField a p.1 p.2) acc
      _ = rest.foldl (fun a p => setField a p.1 p.2) (acc ++ [(k, v)]) := by
            simp [List.foldl_cons, hacc]
      _ = acc ++ [(k, v)] ++ rest := ih _ hfresh2 hnd2
      _ = acc ++ (k, v) :: rest := by simp

theorem withId_eq (k : Value) (body : Fields)
    (h : getField body "_id" = none) (hnd : (body.map Prod.fst).Nodup) :
    withId k body = ("_id", k) :: body := by
  have hfresh : ∀ p ∈ body, getField [("_id", k)] p.1 = none := by
    intro p hp
    have := (getField_eq_none_iff body "_id").mp h p hp
    simp [getField, Ne.symm this]
  simpa [withId] using foldl_setField_append body [("_id", k)] hfresh hnd

theorem getField_eraseField_self (m : Fields) (f : String) :
    getField (eraseField m f) f = none := by
  induction m with
  | nil => simp [eraseField, getField]
  | cons p rest ih =>
      obtain ⟨k, v⟩ := p
      by_cases h : k = f
      · simp [eraseField, h, ih]
      · simp [eraseField, getField, h, ih]

theorem eraseField_sublist (m : Fields) (f : String) :
    List.Sublist (eraseField m f) m := by
  induction m with
  | nil => simp [eraseField]
  | cons p rest ih =>
      obtain ⟨k, v⟩ := p
      by_cases h : k = f
      · simp only [eraseField, if_pos h]
        exact ih.cons _
      · simp only [eraseField, if_neg h]
        exact ih.cons₂ _

/-! The claims. -/

/-- C1: with an identifier in the query, `update_one` reports 1 record
modified precisely because the key exists, regardless of whether any
`$push` or `$pull` clause changed the record, and reports 0 and leaves
the store unchanged when the key is absent. -/
theorem claim_C1 (q u : Fields) (s : Store) (k : Value)
    (hq : getField q "_id" = some k) :
    (storeGet s k = none → update_one q u s = .ok (0, s)) ∧
    (∀ b, storeGet s k = some b →
      ∀ r s2, update_one q u s = .ok (r, s2) → r = 1) := by
  constructor
  · intro hnone
    simp [update_one, hq, hnone]
  · intro b hb r s2 hr
    simp only [update_one, hq, hb] at hr
    rcases h1 : pushPart u b with e1 | b1 <;> rw [h1] at hr
    · simp at hr
    · rcases h2 : pullPart u b1 with e2 | b2 <;> simp [h2] at hr
      exact hr.1.symm

/-- C1 witness: pulling an absent value from an existing key still
reports 1; an absent key reports 0 and leaves the store as it was. -/
theorem claim_C1_witness :
    update_one [("_id", Value.str "b")] [("$pull", Value.obj [("xs", Value.str "z")])]
        [(Value.str "a", [("xs", Value.list [Value.str "y"])])]
      = Except.ok (0, [(Value.str "a", [("xs", Value.list [Value.str "y"])])]) ∧
    (1 : Nat) = 1 := by
  constructor
  · exact (claim_C1 [("_id", Value.str "b")] [("$pull", Value.obj [("xs", Value.str "z")])]
      [(Value.str "a", [("xs", Value.list [Value.str "y"])])] (Value.str "b") rfl).1 rfl
  · exact (claim_C1 [("_id", Value.str "a")] [("$pull", Value.obj [("xs", Value.str "z")])]
      [(Value.str "a", [("xs", Value.list [Value.str "y"])])] (Value.str "a") rfl).2
      [("xs", Value.list [Value.str "y"])] rfl 1
      [(Value.str "a", [("xs", Value.list [Value.str "y"])])] rfl

/-- C2: after `insert_one` of a document with identifier `k`,
`find_one({"_id": k})` returns the document's non-identifier fields
with the identifier restored in front. -/
theorem claim_C2 (d : Fields) (k : Value) (s : Store)
    (hd : getField d "_id" = some k) (hnd : (d.map Prod.fst).Nodup) :
    find_one [("_id", k)] (insert_one d s).2.2
      = some (("_id", k) :: eraseField d "_id") := by
  have hstore : (insert_one d s).2.2 = storeSet s k (eraseField d "_id") := by
    simp [insert_one, hd]
  have h1 : getField [("_id", k)] "_id" = some k := by simp [getField]
  rw [hstore]
  simp only [find_one, h1, storeGet_storeSet_self]
  rw [withId_eq k _ (getField_eraseField_self d "_id")
    (hnd.sublist ((eraseField_sublist d "_id").map Prod.fst))]

/-- C2 witness at a concrete document and empty store. -/
theorem claim_C2_witness :
    find_one [("_id", Value.str "a")]
        (insert_one [("_id", Value.str "a"), ("x", Value.int 3)] []).2.2
      = some [("_id", Value.str "a"), ("x", Value.int 3)] :=
  claim_C2 [("_id", Value.str "a"), ("x", Value.int 3)] (Value.str "a") [] rfl (by decide)

theorem update_one_push_list (k : Value) (s : Store) (b : Fields) (f : String)
    (v : Value) (l : List Value)
    (hb : storeGet s k = some b) (hf : getField b f = some (.list l)) :
    update_one [("_id", k)] [("$push", Value.obj [(f, v)])] s
      = .ok (1, storeSet s k (setField b f (.list (l ++ [v])))) := by
  have hq : getField [("_id", k)] "_id" = some k := by simp [getField]
  have hpush : pushPart [("$push", Value.obj [(f, v)])] b
      = .ok (setField b f (.list (l ++ [v]))) := by
    simp [pushPart, getField, applyPush, hf]
  have hpull : pullPart [("$push", Value.obj [(f, v)])] (setField b f (.list (l ++ [v])))
      = .ok (setField b f (.list (l ++ [v]))) := by
    simp [pullPart, getField]
  simp [update_one, hq, hb, hpush, hpull]

theorem update_one_push_new (k : Value) (s : Store) (b : Fields) (f : String)
    (v : Value)
    (hb : storeGet s k = some b) (hf : getField b f = none) :
    update_one [("_id", k)] [("$push", Value.obj [(f, v)])] s
      = .ok (1, storeSet s k (setField b f (.list [v]))) := by
  have hq : getField [("_id", k)] "_id" = some k := by simp [getField]
  have hpush : pushPart [("$push", Value.obj [(f, v)])] b
      = .ok (setField b f (.list [v])) := by
    simp [pushPart, getField, applyPush, hf]
  have hpull : pullPart [("$push", Value.obj [(f, v)])] (setField b f (.list [v]))
      = .ok (setField b f (.list [v])) := by
    simp [pullPart, getField]
  simp [update_one, hq, hb, hpush, hpull]

theorem iterPush_list (k : Value) (f : String) (v : Value) :
    ∀ (n : Nat) (s : Store) (b : Fields) (l : List Value),
      storeGet s k = some b → getField b f = some (.list l) →
      iterPush k f v n s
        = .ok (storeSet s k (setField b f (.list (l ++ List.replicate n v)))) := by
  intro n
  induction n with
  | zero =>
      intro s b l hb hf
      simp only [iterPush, List.replicate, List.append_nil]
      rw [setField_eq_self b f _ hf, storeSet_eq_self s k b hb]
  | succ n ih =>
      intro s b l hb hf
      have hstep := update_one_push_list k s b f v l hb hf
      simp only [iterPush, hstep]
      rw [ih _ _ _ (storeGet_storeSet_self _ _ _) (getField_setField_self _ _ _)]
      rw [setField_setField, storeSet_storeSet]
      simp [List.replicate_succ]

/-- C3: on an existing key, `$push` on field `f` appends exactly one
element at the end of `f`'s list (a fresh one-element list if `f` is
absent), and repeating the same `$push` `n + 1` times starting from an
absent `f` yields the `n + 1`-fold repetition of the value, duplicates
and order included. -/
theorem claim_C3 (s : Store) (k : Value) (b : Fields) (f : String) (v : Value)
    (hb : storeGet s k = some b) :
    (∀ l, getField b f = some (.list l) →
        update_one [("_id", k)] [("$push", Value.obj [(f, v)])] s
          = .ok (1, storeSet s k (setField b f (.list (l ++ [v]))))) ∧
    (getField b f = none →
        update_one [("_id", k)] [("$push", Value.obj [(f, v)])] s
          = .ok (1, storeSet s k (setField b f (.list [v])))) ∧
    (getField b f = none → ∀ n : Nat,
        iterPush k f v (n + 1) s
          = .ok (storeSet s k (setField b f (.list (List.replicate (n + 1) v))))) := by
  refine ⟨fun l hf => update_one_push_list k s b f v l hb hf,
          fun hf => update_one_push_new k s b f v hb hf,
          fun hf n => ?_⟩
  have hstep := update_one_push_new k s b f v hb hf
  simp only [iterPush, hstep]
  rw [iterPush_list k f v n _ _ [v]
    (storeGet_storeSet_self _ _ _) (getField_setField_self _ _ _)]
  rw [setField_setField, storeSet_storeSet]
  simp [List.replicate_succ]

/-- C3 witness: two pushes to an initially absent field produce a
two-element list with the duplicate kept. -/
theorem claim_C3_witness :
    iterPush (Value.str "a") "xs" (Value.str "v") 2 [(Value.str "a", [])]
      = .ok [(Value.str "a", [("xs", Value.list [Value.str "v", Value.str "v"])])] := by
  exact (claim_C3 [(Value.str "a", [])] (Value.str "a") [] "xs" (Value.str "v") rfl).2.2 rfl 1

/-- C4: on an existing key, `$pull` on field `f` removes exactly the
first occurrence of the value from `f`'s list when present (`List.erase`
keeps later duplicates), and leaves the record and store unchanged when
`f` is absent or the value does not occur. -/
theorem claim_C4 (s : Store) (k : Value) (b : Fields) (f : String) (v : Value)
    (hb : storeGet s k = some b) :
    (∀ l, getField b f = some (.list l) → v ∈ l →
        update_one [("_id", k)] [("$pull", Value.obj [(f, v)])] s
          = .ok (1, storeSet s k (setField b f (.list (l.erase v))))) ∧
    (∀ l, getField b f = some (.list l) → v ∉ l →
        update_one [("_id", k)] [("$pull", Value.obj [(f, v)])] s = .ok (1, s)) ∧
    (getField b f = none →
        update_one [("_id", k)] [("$pull", Value.obj [(f, v)])] s = .ok (1, s)) := by
  have hq : getField [("_id", k)] "_id" = some k := by simp [getField]
  have hnopush : pushPart [("$pull", Value.obj [(f, v)])] b = .ok b := by
    simp [pushPart, getField]
  refine ⟨fun l hf hv => ?_, fun l hf hv => ?_, fun hf => ?_⟩
  · have hpull : pullPart [("$pull", Value.obj [(f, v)])] b
        = .ok (setField b f (.list (l.erase v))) := by
      simp [pullPart, getField, applyPull, hf, memVal, hv]
    simp [update_one, hq, hb, hnopush, hpull]
  · have hpull : pullPart [("$pull", Value.obj [(f, v)])] b = .ok b := by
      simp [pullPart, getField, applyPull, hf, memVal, hv]
    simp [update_one, hq, hb, hnopush, hpull, storeSet_eq_self s k b hb]
  · have hpull : pullPart [("$pull", Value.obj [(f, v)])] b = .ok b := by
      simp [pullPart, getField, applyPull, hf]
    simp [update_one, hq, hb, hnopush, hpull, storeSet_eq_self s k b hb]

/-- C4 witness: pulling "y" from ["y", "z", "y"] removes only the first
occurrence. -/
theorem claim_C4_witness :
    update_one [("_id", Value.str "a")] [("$pull", Value.obj [("xs", Value.str "y")])]
        [(Value.str "a", [("xs", Value.list [Value.str "y", Value.str "z", Value.str "y"])])]
      = .ok (1, [(Value.str "a",
          [("xs", Value.list [Value.str "z", Value.str "y"])])]) := by
  exact (claim_C4
    [(Value.str "a", [("xs", Value.list [Value.str "y", Value.str "z", Value.str "y"])])]
    (Value.str "a") [("xs", Value.list [Value.str "y", Value.str "z", Value.str "y"])]
    "xs" (Value.str "y") rfl).1
    [Value.str "y", Value.str "z", Value.str "y"] rfl (by decide)

/-- C5: a `schedule_details.start_time` condition (either
`{"$gte": t}` or a bare string `t`) is satisfied exactly when the
record carries a string start_time that is not lexicographically below
`t` (i.e. is `≥ t` in code-point order), and symmetrically an
`end_time` condition (`{"$lte": t}` or bare `t`) exactly when the
record's end_time is not lexicographically above `t`; a record whose
`schedule_details` lacks the referenced field, or which lacks
`schedule_details` altogether, never matches, whatever the condition
is. -/
theorem claim_C5 (b sd : Fields) (t s0 e0 : String) (c : Value)
    (hsd : getField b "schedule_details" = some (.obj sd)) :
    (getField sd "start_time" = some (.str s0) →
      matchesQuery b [("schedule_details.start_time", Value.obj [("$gte", Value.str t)])]
          = .ok (!decide (s0.toList < t.toList)) ∧
      matchesQuery b [("schedule_details.start_time", Value.str t)]
          = .ok (!decide (s0.toList < t.toList))) ∧
    (getField sd "end_time" = some (.str e0) →
      matchesQuery b [("schedule_details.end_time", Value.obj [("$lte", Value.str t)])]
          = .ok (!decide (t.toList < e0.toList)) ∧
      matchesQuery b [("schedule_details.end_time", Value.str t)]
          = .ok (!decide (t.toList < e0.toList))) ∧
    (getField sd "start_time" = none →
      matchesQuery b [("schedule_details.start_time", c)] = .ok false) ∧
    (getField sd "end_time" = none →
      matchesQuery b [("schedule_details.end_time", c)] = .ok false) ∧
    (∀ b2 : Fields, getField b2 "schedule_details" = none →
      matchesQuery b2 [("schedule_details.start_time", c)] = .ok false ∧
      matchesQuery b2 [("schedule_details.end_time", c)] = .ok false) := by
  refine ⟨fun hst => ⟨?_, ?_⟩, fun het => ⟨?_, ?_⟩, fun hst => ?_, fun het => ?_,
    fun b2 hb2 => ⟨?_, ?_⟩⟩
  · cases h : decide (s0.toList < t.toList) <;>
      simp [matchesQuery, hsd, memVal, hst, indexVal, getField, ltVal, h]
    · exact le_of_not_lt (of_decide_eq_false h)
    · exact of_decide_eq_true h
  · cases h : decide (s0.toList < t.toList) <;>
      simp [matchesQuery, hsd, memVal, hst, indexVal, ltVal, h]
    · exact le_of_not_lt (of_decide_eq_false h)
    · exact of_decide_eq_true h
  · cases h : decide (t.toList < e0.toList) <;>
      simp [matchesQuery, hsd, memVal, het, indexVal, getField, gtVal, ltVal, h]
    · exact le_of_not_lt (of_decide_eq_false h)
    · exact of_decide_eq_true h
  · cases h : decide (t.toList < e0.toList) <;>
      simp [matchesQuery, hsd, memVal, het, indexVal, gtVal, ltVal, h]
    · exact le_of_not_lt (of_decide_eq_false h)
    · exact of_decide_eq_true h
  · simp [matchesQuery, hsd, memVal, hst]
  · simp [matchesQuery, hsd, memVal, het]
  · simp [matchesQuery, hb2]
  · simp [matchesQuery, hb2]

/-- C5 witness at the Chess Club record: start 15:15 satisfies
`$gte 15:00` but not a bare "16:00" floor; end 16:45 satisfies
`$lte 17:00`; a record without the field never matches. -/
theorem claim_C5_witness :
    matchesQuery chessClub
        [("schedule_details.start_time", Value.obj [("$gte", Value.str "15:00")])]
      = .ok true ∧
    matchesQuery chessClub [("schedule_details.start_time", Value.str "16:00")]
      = .ok false ∧
    matchesQuery chessClub
        [("schedule_details.end_time", Value.obj [("$lte", Value.str "17:00")])]
      = .ok true ∧
    matchesQuery [("x", Value.int 0)]
        [("schedule_details.start_time", Value.str "15:00")] = .ok false := by
  have h1 := claim_C5 chessClub
    [("days", Value.list [Value.str "Monday", Value.str "Friday"]),
     ("start_time", Value.str "15:15"), ("end_time", Value.str "16:45")]
    "15:00" "15:15" "16:45" (Value.str "15:00") rfl
  have h2 := claim_C5 chessClub
    [("days", Value.list [Value.str "Monday", Value.str "Friday"]),
     ("start_time", Value.str "15:15"), ("end_time", Value.str "16:45")]
    "16:00" "15:15" "16:45" (Value.str "15:00") rfl
  have h3 := claim_C5 chessClub
    [("days", Value.list [Value.str "Monday", Value.str "Friday"]),
     ("start_time", Value.str "15:15"), ("end_time", Value.str "16:45")]
    "17:00" "15:15" "16:45" (Value.str "15:00") rfl
  refine ⟨?_, ?_, ?_, ?_⟩
  · exact (h1.1 rfl).1
  · exact (h2.1 rfl).2
  · exact (h3.2.1 rfl).1
  · exact (h1.2.2.2.2 [("x", Value.int 0)] rfl).1

theorem matchesQuery_unknown (b : Fields) : ∀ q : Fields,
    (∀ p ∈ q, ¬p.1 = "schedule_details.days" ∧ ¬p.1 = "schedule_details.start_time" ∧
      ¬p.1 = "schedule_details.end_time") →
    matchesQuery b q = .ok true
  | [], _ => rfl
  | (f, c) :: rest, hq => by
      have h := hq (f, c) (List.mem_cons_self _ _)
      have ih := matchesQuery_unknown b rest (fun p hp => hq p (List.mem_cons_of_mem _ hp))
      simpa [matchesQuery, h.1, h.2.1, h.2.2] using ih

theorem findAux_all (q : Fields) (hq : ∀ b, matchesQuery b q = .ok true) :
    ∀ s : Store, findAux q s = .ok (s.map fun p => withId p.1 p.2)
  | [] => rfl
  | (k, b) :: rest => by
      simp [findAux, hq b, findAux_all q hq rest]

/-- C6: every condition whose field path is not one of the three
supported dotted paths is skipped (treated as satisfied), so a query
made only of such paths matches every record and `find` returns the
whole store. -/
theorem claim_C6 (q : Fields) (s : Store)
    (hq : ∀ p ∈ q, ¬p.1 = "schedule_details.days" ∧ ¬p.1 = "schedule_details.start_time" ∧
      ¬p.1 = "schedule_details.end_time") :
    (∀ b, matchesQuery b q = .ok true) ∧
    find (some q) s = .ok (s.map fun p => withId p.1 p.2) := by
  have hm : ∀ b, matchesQuery b q = .ok true := fun b => matchesQuery_unknown b q hq
  exact ⟨hm, findAux_all q hm s⟩

/-- C6 witness: a query on two unsupported paths returns the whole
two-record store. -/
theorem claim_C6_witness :
    find (some [("description", Value.str "x"), ("max_participants", Value.int 3)])
        [(Value.str "a", [("y", Value.int 1)]), (Value.str "b", [])]
      = .ok [[("_id", Value.str "a"), ("y", Value.int 1)], [("_id", Value.str "b")]] := by
  exact (claim_C6 [("description", Value.str "x"), ("max_participants", Value.int 3)]
    [(Value.str "a", [("y", Value.int 1)]), (Value.str "b", [])] (by decide)).2

/-- C7 counterexample: `$push` onto an existing field whose stored
value is an int (no `.append`) raises, so `update_one` is not total. -/
theorem claim_C7_counterexample :
    update_one [("_id", Value.str "a")] [("$push", Value.obj [("x", Value.str "v")])]
      [(Value.str "a", [("x", Value.int 0)])] = .error () := rfl

/-- C7 amended: the degradation promise holds for the malformed inputs
the code actually guards (query without an identifier, or identifier
not in the store: no-op with 0 modified; an update whose operators are
all unsupported: the record is rewritten unchanged with 1 modified,
without raising), but not for `$push`/`$pull` against a stored
non-sequence, which raises. -/
theorem claim_C7_theorem (q u : Fields) (s : Store) :
    (getField q "_id" = none → update_one q u s = .ok (0, s)) ∧
    (∀ k, getField q "_id" = some k → storeGet s k = none →
      update_one q u s = .ok (0, s)) ∧
    (∀ k b, getField q "_id" = some k → storeGet s k = some b →
      getField u "$push" = none → getField u "$pull" = none →
      update_one q u s = .ok (1, s)) := by
  refine ⟨fun h => by simp [update_one, h], fun k hk hn => by simp [update_one, hk, hn],
    fun k b hk hb hpu hpl => ?_⟩
  simp [update_one, hk, hb, pushPart, pullPart, hpu, hpl, storeSet_eq_self s k b hb]

/-- C7 amended witness: no identifier, missing key, and an update with
only the unsupported `$set` operator, all complete without raising. -/
theorem claim_C7_witness :
    update_one [] [("$push", Value.obj [("x", Value.str "v")])] [(Value.str "a", [])]
      = .ok (0, [(Value.str "a", [])]) ∧
    update_one [("_id", Value.str "b")] [("$push", Value.obj [("x", Value.str "v")])]
      [(Value.str "a", [])] = .ok (0, [(Value.str "a", [])]) ∧
    update_one [("_id", Value.str "a")] [("$set", Value.obj [("x", Value.int 1)])]
      [(Value.str "a", [("x", Value.int 0)])]
      = .ok (1, [(Value.str "a", [("x", Value.int 0)])]) := by
  refine ⟨?_, ?_, ?_⟩
  · exact (claim_C7_theorem [] [("$push", Value.obj [("x", Value.str "v")])]
      [(Value.str "a", [])]).1 rfl
  · exact (claim_C7_theorem [("_id", Value.str "b")]
      [("$push", Value.obj [("x", Value.str "v")])] [(Value.str "a", [])]).2.1
      (Value.str "b") rfl rfl
  · exact (claim_C7_theorem [("_id", Value.str "a")]
      [("$set", Value.obj [("x", Value.int 1)])]
      [(Value.str "a", [("x", Value.int 0)])]).2.2
      (Value.str "a") [("x", Value.int 0)] rfl rfl rfl rfl

/-- C8: on the seed store, the Monday `$in` query returns exactly the
Chess Club, Morning Fitness and Drama Club records, in store order. -/
theorem claim_C8 :
    find (some [("schedule_details.days", Value.obj [("$in", Value.list [Value.str "Monday"])])])
        initial_activities
      = .ok [withId (Value.str "Chess Club") chessClub,
             withId (Value.str "Morning Fitness") morningFitness,
             withId (Value.str "Drama Club") dramaClub] := rfl

/-- C9: `insert_one` mutates the caller's document: the "_id" entry is
popped out of it, and the stored body is exactly that post-call
mapping. -/
theorem claim_C9 (d : Fields) (k : Value) (s : Store)
    (hd : getField d "_id" = some k) :
    (insert_one d s).1 = true ∧
    (insert_one d s).2.1 = eraseField d "_id" ∧
    storeGet (insert_one d s).2.2 k = some ((insert_one d s).2.1) := by
  simp [insert_one, hd, storeGet_storeSet_self]

/-- C9 witness at a concrete document. -/
theorem claim_C9_witness :
    (insert_one [("_id", Value.str "a"), ("x", Value.int 3)] []).1 = true ∧
    (insert_one [("_id", Value.str "a"), ("x", Value.int 3)] []).2.1
      = eraseField [("_id", Value.str "a"), ("x", Value.int 3)] "_id" ∧
    storeGet (insert_one [("_id", Value.str "a"), ("x", Value.int 3)] []).2.2
        (Value.str "a")
      = some ((insert_one [("_id", Value.str "a"), ("x", Value.int 3)] []).2.1) :=
  claim_C9 [("_id", Value.str "a"), ("x", Value.int 3)] (Value.str "a") [] rfl

/-- C10: the two teacher-seeding paths disagree: seeding through
`insert_one` stores teacher bodies that still contain the "username"
field (only "_id" is popped), while the exception-fallback direct
assignment strips "username", so `find_one` on a teacher key returns a
record with or without "username" depending on which path ran. -/
theorem claim_C10 (hash : String → String) :
    Except.map (fun sA => Option.map (fun r => getField r "username")
        (find_one [("_id", Value.str "mrodriguez")] sA)) (seedTeachersInsert hash)
      = .ok (some (some (Value.str "mrodriguez"))) ∧
    Except.map (fun sB => Option.map (fun r => getField r "username")
        (find_one [("_id", Value.str "mrodriguez")] sB)) (seedTeachersFallback hash)
      = .ok (some none) :=
  ⟨rfl, rfl⟩

/-- C10 witness at the identity in place of the hash function. -/
theorem claim_C10_witness :
    Except.map (fun sA => Option.map (fun r => getField r "username")
        (find_one [("_id", Value.str "mrodriguez")] sA)) (seedTeachersInsert id)
      = .ok (some (some (Value.str "mrodriguez"))) ∧
    Except.map (fun sB => Option.map (fun r => getField r "username")
        (find_one [("_id", Value.str "mrodriguez")] sB)) (seedTeachersFallback id)
      = .ok (some none) :=
  claim_C10 id

end MockDB
